import Mathlib

/-!
Verification development for the cc_customer_reporting repository.

The Python sources are embedded shallowly: numeric values are modelled as
exact rationals (ℚ), Python lists as `List ℚ`, dictionaries as association
lists or functions, and fallible code as `Except`.  Display-only strings
(formatted equations, log messages) are not modelled except where a claim
depends on them.  Python loops `for i in range(len(xs))` that index two
equal-length lists in lockstep are rendered with `List.zip`; every call
site in the source passes equal-length lists.
-/

namespace CCReport

/-! ### Trendline analyzer (src/trendline_analyzer.py) -/

/-- `TrendlineAnalyzer._mean`: `sum(values) / len(values) if values else 0`. -/
def listMean (values : List ℚ) : ℚ :=
  if values.isEmpty then 0 else values.sum / (values.length : ℚ)

/-- `TrendlineAnalyzer._linear_regression`: least-squares slope and
intercept, `(0,0)` for fewer than two points, `(0, y_mean)` when the x
values are all equal (denominator zero). -/
def linear_regression (xs ys : List ℚ) : ℚ × ℚ :=
  let n := xs.length
  if n < 2 then (0, 0) else
  let x_mean := xs.sum / (n : ℚ)
  let y_mean := ys.sum / (n : ℚ)
  let numer := ((xs.zip ys).map (fun p => (p.1 - x_mean) * (p.2 - y_mean))).sum
  let denom := (xs.map (fun x => (x - x_mean) ^ 2)).sum
  if denom = 0 then (0, y_mean) else
  let slope := numer / denom
  (slope, y_mean - slope * x_mean)

/-- `TrendlineAnalyzer.linear_trendline`: fitted line values and slope;
returns the raw series and slope 0 on fewer than two points. -/
def linear_trendline (xs ys : List ℚ) : List ℚ × ℚ :=
  if ys.length < 2 then (ys, 0) else
  let sb := linear_regression xs ys
  (xs.map (fun x => sb.1 * x + sb.2), sb.1)

/-- `TrendlineAnalyzer._polyfit_degree2`: closed-form least-squares
quadratic fit by Cramer's rule; `(0, 0, mean ys)` for fewer than three
points; falls back to the linear coefficients when `|det| < 1e-10`. -/
def polyfit_degree2 (xs ys : List ℚ) : ℚ × ℚ × ℚ :=
  let n := xs.length
  if n < 3 then (0, 0, listMean ys) else
  let sum_x := xs.sum
  let sum_x2 := (xs.map (fun x => x ^ 2)).sum
  let sum_x3 := (xs.map (fun x => x ^ 3)).sum
  let sum_x4 := (xs.map (fun x => x ^ 4)).sum
  let sum_y := ys.sum
  let sum_xy := ((xs.zip ys).map (fun p => p.1 * p.2)).sum
  let sum_x2y := ((xs.zip ys).map (fun p => p.1 ^ 2 * p.2)).sum
  let det := sum_x4 * (sum_x2 * n - sum_x * sum_x) -
             sum_x3 * (sum_x3 * n - sum_x * sum_x2) +
             sum_x2 * (sum_x3 * sum_x - sum_x2 * sum_x2)
  if |det| < 1 / 10000000000 then
    let sb := linear_regression xs ys
    (0, sb.1, sb.2)
  else
  let det_a := sum_x2y * (sum_x2 * n - sum_x * sum_x) -
               sum_x3 * (sum_xy * n - sum_x * sum_y) +
               sum_x2 * (sum_xy * sum_x - sum_x2 * sum_y)
  let det_b := sum_x4 * (sum_xy * n - sum_x * sum_y) -
               sum_x2y * (sum_x3 * n - sum_x * sum_x2) +
               sum_x2 * (sum_x3 * sum_y - sum_x2 * sum_xy)
  let det_c := sum_x4 * (sum_x2 * sum_y - sum_x * sum_xy) -
               sum_x3 * (sum_x3 * sum_y - sum_x * sum_x2y) +
               sum_x2y * (sum_x3 * sum_x - sum_x2 * sum_x2)
  (det_a / det, det_b / det, det_c / det)

/-- `TrendlineAnalyzer.polynomial_trendline` (degree 2): fitted quadratic
values and the end slope `2a·x_last + b`; raw series and slope 0 on fewer
than `degree + 1 = 3` points. -/
def polynomial_trendline (xs ys : List ℚ) : List ℚ × ℚ :=
  if ys.length < 3 then (ys, 0) else
  let abc := polyfit_degree2 xs ys
  let a := abc.1
  let b := abc.2.1
  let c := abc.2.2
  (xs.map (fun x => a * x ^ 2 + b * x + c), 2 * a * xs.getLastD 0 + b)

/-- `TrendlineAnalyzer.moving_average_trendline`: for index `i`, the
average of the last `window` values (or of all values so far when
`i < window - 1`); slope is the difference of the last two fitted values;
raw series and slope 0 on fewer than `window` points. -/
def moving_average_trendline (ys : List ℚ) (window : ℕ) : List ℚ × ℚ :=
  if ys.length < window then (ys, 0) else
  let trendline := (List.range ys.length).map (fun i =>
    if i < window - 1 then (ys.take (i + 1)).sum / ((i : ℚ) + 1)
    else ((ys.drop (i + 1 - window)).take window).sum / (window : ℚ))
  let slope := if 2 ≤ trendline.length
    then trendline.getLastD 0 - trendline.dropLast.getLastD 0 else 0
  (trendline, slope)

/-- Inner recursion of `TrendlineAnalyzer.exponential_smoothing`: each
fitted value is `α·raw + (1-α)·previous fitted`. -/
def expSmoothFrom (alpha prev : ℚ) : List ℚ → List ℚ
  | [] => []
  | y :: ys =>
    let s := alpha * y + (1 - alpha) * prev
    s :: expSmoothFrom alpha s ys

/-- `TrendlineAnalyzer.exponential_smoothing`: first fitted value is the
first raw value; slope is the difference of the last two fitted values;
raw series and slope 0 on fewer than two points. -/
def exponential_smoothing (ys : List ℚ) (alpha : ℚ) : List ℚ × ℚ :=
  if ys.length < 2 then (ys, 0) else
  let trendline := ys.headD 0 :: expSmoothFrom alpha (ys.headD 0) ys.tail
  let slope := if 2 ≤ trendline.length
    then trendline.getLastD 0 - trendline.dropLast.getLastD 0 else 0
  (trendline, slope)

/-- `TrendlineAnalyzer.calculate_growth_score`: 0 on fewer than two fitted
points or when the first fitted value is 0; otherwise
`growth_rate·100 + R²·10` with `R²` taken as 0 when `SS_tot = 0`. -/
def calculate_growth_score (original_values trendline_values : List ℚ) : ℚ :=
  if trendline_values.length < 2 then 0 else
  let start_value := trendline_values.headD 0
  let end_value := trendline_values.getLastD 0
  if start_value = 0 then 0 else
  let growth_rate := (end_value - start_value) / |start_value|
  let mean_original := original_values.sum / (original_values.length : ℚ)
  let ss_tot := (original_values.map (fun y => (y - mean_original) ^ 2)).sum
  let ss_res := ((original_values.zip trendline_values).map
    (fun p => (p.1 - p.2) ^ 2)).sum
  let r_squared := if ss_tot ≠ 0 then 1 - ss_res / ss_tot else 0
  growth_rate * 100 + r_squared * 10

/-- One trendline candidate as built in `find_best_trendline` (the
formatted `equation` string is display-only and not modelled). -/
structure TrendCandidate where
  modelType : String
  values : List ℚ
  slope : ℚ
  score : ℚ
  deriving Repr, DecidableEq

/-- The x axis used by `find_best_trendline`: `range(len(y_values))`. -/
def xValues (ys : List ℚ) : List ℚ := (List.range ys.length).map (fun i => (i : ℚ))

/-- Candidate 1 of `find_best_trendline`: linear trendline. -/
def linearCand (ys : List ℚ) : TrendCandidate :=
  let t := linear_trendline (xValues ys) ys
  ⟨"linear", t.1, t.2, calculate_growth_score ys t.1⟩

/-- Candidate 2 of `find_best_trendline`: degree-2 polynomial. -/
def polyCand (ys : List ℚ) : TrendCandidate :=
  let t := polynomial_trendline (xValues ys) ys
  ⟨"polynomial", t.1, t.2, calculate_growth_score ys t.1⟩

/-- Candidate 3 of `find_best_trendline`: 3-period moving average. -/
def ma3Cand (ys : List ℚ) : TrendCandidate :=
  let t := moving_average_trendline ys 3
  ⟨"moving_average_3", t.1, t.2, calculate_growth_score ys t.1⟩

/-- Candidate 4 of `find_best_trendline`: 6-period moving average,
appended only when the series has at least 6 points. -/
def ma6Cand (ys : List ℚ) : TrendCandidate :=
  let t := moving_average_trendline ys 6
  ⟨"moving_average_6", t.1, t.2, calculate_growth_score ys t.1⟩

/-- Candidate 5 of `find_best_trendline`: exponential smoothing, α = 0.3. -/
def expCand (ys : List ℚ) : TrendCandidate :=
  let t := exponential_smoothing ys (3 / 10)
  ⟨"exponential_smoothing", t.1, t.2, calculate_growth_score ys t.1⟩

/-- The candidate list of `find_best_trendline`, in the order the code
appends them; the 6-period moving average is present iff `len(y) >= 6`.
(The per-candidate `try/except` blocks are vacuous here: the embedded
candidate computations are total.) -/
def trendCandidates (ys : List ℚ) : List TrendCandidate :=
  linearCand ys :: polyCand ys :: ma3Cand ys ::
    ((if 6 ≤ ys.length then [ma6Cand ys] else []) ++ [expCand ys])

/-- Python's `max(candidates, key=lambda x: x['score'])`: scan left to
right, replacing the current best only on a strictly greater score, so
the earliest maximal element wins. -/
def pickBest (best : TrendCandidate) : List TrendCandidate → TrendCandidate
  | [] => best
  | c :: cs => pickBest (if best.score < c.score then c else best) cs

/-- `TrendlineAnalyzer.find_best_trendline` (labels are display-only and
not modelled; the sentinel dict carries no slope, modelled as 0). -/
def find_best_trendline (ys : List ℚ) : TrendCandidate :=
  if ys.length < 2 then ⟨"none", ys, 0, 0⟩ else
  match trendCandidates ys with
  | [] => ⟨"none", ys, 0, 0⟩
  | c :: cs => pickBest c cs

/-- Modelled from the spec's scoring sentence (the formula claim C1
ascribes to `calculate_growth_score`): the growth term alone is taken as
0 when `F[0] = 0`, so the `R²·10` term survives. -/
def claimGrowthScore (Y F : List ℚ) : ℚ :=
  let F0 := F.headD 0
  let growth_rate := if F0 = 0 then 0 else (F.getLastD 0 - F0) / |F0|
  let mean := Y.sum / (Y.length : ℚ)
  let ss_tot := (Y.map (fun y => (y - mean) ^ 2)).sum
  let ss_res := ((Y.zip F).map (fun p => (p.1 - p.2) ^ 2)).sum
  let r_squared := if ss_tot = 0 then 0 else 1 - ss_res / ss_tot
  growth_rate * 100 + r_squared * 10


/-- Python `max` with a key scans left to right and replaces only on a
strictly greater key, so the list splits around the result: everything
before it scores strictly less, everything after scores at most it. -/
theorem pickBest_split (b : TrendCandidate) (cs : List TrendCandidate) :
    ∃ pre post, b :: cs = pre ++ pickBest b cs :: post ∧
      (∀ c ∈ pre, c.score < (pickBest b cs).score) ∧
      (∀ c ∈ post, c.score ≤ (pickBest b cs).score) := by
  induction cs generalizing b with
  | nil => exact ⟨[], [], rfl, by simp, by simp⟩
  | cons c cs ih =>
    by_cases h : b.score < c.score
    · obtain ⟨pre, post, heq, hpre, hpost⟩ := ih c
      have hres : pickBest b (c :: cs) = pickBest c cs := by simp [pickBest, h]
      rw [hres]
      refine ⟨b :: pre, post, by rw [List.cons_append, ← heq], ?_, hpost⟩
      intro x hx
      rcases List.mem_cons.1 hx with rfl | hx
      · cases pre with
        | nil =>
          have : c = pickBest c cs := by simpa using congrArg (fun l => l.headD c) heq
          exact this ▸ h
        | cons p pre' =>
          have hc : c = p := by simpa using congrArg (fun l => l.headD c) heq
          have hp : p.score < (pickBest c cs).score := hpre p (by simp)
          exact lt_trans (hc ▸ h) hp
      · exact hpre x hx
    · obtain ⟨pre, post, heq, hpre, hpost⟩ := ih b
      have hres : pickBest b (c :: cs) = pickBest b cs := by simp [pickBest, h]
      rw [hres]
      cases pre with
      | nil =>
        have hb : b = pickBest b cs := by simpa using congrArg (fun l => l.headD b) heq
        have hcs : cs = post := by simpa using congrArg List.tail heq
        refine ⟨[], c :: post, by rw [List.nil_append, ← hb, hcs], by simp, ?_⟩
        intro x hx
        rcases List.mem_cons.1 hx with rfl | hx
        · exact hb ▸ le_of_not_lt h
        · exact hpost x hx
      | cons p pre' =>
        have hb : b = p := by simpa using congrArg (fun l => l.headD b) heq
        have hcs : cs = pre' ++ pickBest b cs :: post := by
          simpa using congrArg List.tail heq
        have hbscore : b.score < (pickBest b cs).score := hb ▸ hpre p (by simp)
        refine ⟨b :: c :: pre', post, by rw [List.cons_append, List.cons_append, ← hcs], ?_, hpost⟩
        intro x hx
        rcases List.mem_cons.1 hx with rfl | hx
        · exact hbscore
        rcases List.mem_cons.1 hx with rfl | hx
        · exact lt_of_le_of_lt (le_of_not_lt h) hbscore
        · exact hpre x (List.mem_cons_of_mem p hx)


/-- C5: on a series of fewer than two points, `find_best_trendline`
returns the insufficient-data sentinel: type none, score 0, and the raw
input series as the fitted values (and, being total, raises nothing). -/
theorem insufficient_data_sentinel (ys : List ℚ) (h : ys.length < 2) :
    (find_best_trendline ys).modelType = "none" ∧
    (find_best_trendline ys).score = 0 ∧
    (find_best_trendline ys).values = ys := by
  simp [find_best_trendline, h]

/-- C5 witness: the sentinel at the concrete inputs `[]` and `[5]`. -/
theorem insufficient_data_sentinel_witness :
    (find_best_trendline []).modelType = "none" ∧
    (find_best_trendline []).score = 0 ∧
    (find_best_trendline []).values = [] ∧
    (find_best_trendline [5]).modelType = "none" ∧
    (find_best_trendline [5]).score = 0 ∧
    (find_best_trendline [5]).values = [5] := by
  have h1 := insufficient_data_sentinel [] (by norm_num)
  have h2 := insufficient_data_sentinel [5] (by norm_num)
  exact ⟨h1.1, h1.2.1, h1.2.2, h2.1, h2.2.1, h2.2.2⟩

/-- C2: `find_best_trendline` builds its candidates in the fixed order
linear, polynomial, 3-period MA, 6-period MA (only when the series has at
least 6 points), exponential smoothing, and returns the candidate with
the maximum score, ties resolved in favour of the earliest candidate. -/
theorem trend_selection_first_max (ys : List ℚ) (h2 : 2 ≤ ys.length) :
    (trendCandidates ys).map TrendCandidate.modelType =
      (if 6 ≤ ys.length then
        ["linear", "polynomial", "moving_average_3", "moving_average_6",
         "exponential_smoothing"]
       else
        ["linear", "polynomial", "moving_average_3", "exponential_smoothing"]) ∧
    ∃ pre post, trendCandidates ys = pre ++ find_best_trendline ys :: post ∧
      (∀ c ∈ pre, c.score < (find_best_trendline ys).score) ∧
      (∀ c ∈ post, c.score ≤ (find_best_trendline ys).score) := by
  constructor
  · by_cases h6 : 6 ≤ ys.length <;>
      simp [trendCandidates, h6, linearCand, polyCand, ma3Cand, ma6Cand, expCand]
  · have hfb : find_best_trendline ys =
        pickBest (linearCand ys)
          (polyCand ys :: ma3Cand ys ::
            ((if 6 ≤ ys.length then [ma6Cand ys] else []) ++ [expCand ys])) := by
      rw [find_best_trendline, if_neg (Nat.not_lt.2 h2)]
      rfl
    rw [hfb]
    simpa [trendCandidates] using
      pickBest_split (linearCand ys)
        (polyCand ys :: ma3Cand ys ::
          ((if 6 ≤ ys.length then [ma6Cand ys] else []) ++ [expCand ys]))

/-- C1 counterexample: at Y = [0,2], F = [0,1] the code returns 0, while
the claimed formula keeps the fit term and yields R²·10 = 5. -/
theorem growth_score_zero_start_cex :
    calculate_growth_score [0, 2] [0, 1] = 0 ∧
    claimGrowthScore [0, 2] [0, 1] = 5 ∧ (0 : ℚ) ≠ 5 :=
  ⟨by norm_num [calculate_growth_score], by norm_num [claimGrowthScore], by norm_num⟩

/-- C1 amended: for same-length series with at least two fitted points,
`calculate_growth_score` returns `growth_rate*100 + R²*10` when `F[0] ≠ 0`
(`R²` taken as 0 when `SS_tot = 0`), and returns 0 outright when
`F[0] = 0` — the fit term is dropped, not kept. -/
theorem growth_score_formula (Y F : List ℚ) (hF : 2 ≤ F.length)
    (_hYF : Y.length = F.length) :
    (F.headD 0 = 0 → calculate_growth_score Y F = 0) ∧
    (F.headD 0 ≠ 0 →
      calculate_growth_score Y F =
        (F.getLastD 0 - F.headD 0) / |F.headD 0| * 100 +
        (if (Y.map (fun y => (y - Y.sum / (Y.length : ℚ)) ^ 2)).sum ≠ 0 then
           1 - ((Y.zip F).map (fun p => (p.1 - p.2) ^ 2)).sum /
               (Y.map (fun y => (y - Y.sum / (Y.length : ℚ)) ^ 2)).sum
         else 0) * 10) := by
  constructor
  · intro h0
    simp only [calculate_growth_score]
    rw [if_neg (Nat.not_lt.2 hF), if_pos h0]
  · intro h0
    simp only [calculate_growth_score]
    rw [if_neg (Nat.not_lt.2 hF), if_neg h0]

/-- C1 witness: the amended formula evaluated at Y = F = [1,2]. -/
theorem growth_score_formula_witness :
    calculate_growth_score [1, 2] [1, 2] = 110 := by
  have h := (growth_score_formula [1, 2] [1, 2] (by norm_num) rfl).2 (by norm_num)
  rw [h]
  norm_num

/-- C2 witness: the selection property at the concrete six-point series
`[0,1,2,3,4,5]`, which also exercises the 6-period moving average. -/
theorem trend_selection_first_max_witness :
    (trendCandidates [0, 1, 2, 3, 4, 5]).map TrendCandidate.modelType =
      (if 6 ≤ ([0, 1, 2, 3, 4, 5] : List ℚ).length then
        ["linear", "polynomial", "moving_average_3", "moving_average_6",
         "exponential_smoothing"]
       else
        ["linear", "polynomial", "moving_average_3", "exponential_smoothing"]) ∧
    ∃ pre post, trendCandidates [0, 1, 2, 3, 4, 5] =
        pre ++ find_best_trendline [0, 1, 2, 3, 4, 5] :: post ∧
      (∀ c ∈ pre, c.score < (find_best_trendline [0, 1, 2, 3, 4, 5]).score) ∧
      (∀ c ∈ post, c.score ≤ (find_best_trendline [0, 1, 2, 3, 4, 5]).score) :=
  trend_selection_first_max [0, 1, 2, 3, 4, 5] (by norm_num)

/-! ### Industry benchmarks (src/models.py) -/

/-- Python `str.lower` on the ASCII strings used here: lower-casing each
character. -/
def strToLower (s : String) : String := ⟨s.data.map Char.toLower⟩

/-- Whether `needle` starts the list `hay` (helper for the substring
test). -/
def startsWithChars : List Char → List Char → Bool
  | _, [] => true
  | [], _ :: _ => false
  | h :: t, nh :: nt => h == nh && startsWithChars t nt

/-- Whether `needle` occurs contiguously in `hay` (helper for the
substring test). -/
def charsContain (hay needle : List Char) : Bool :=
  match hay with
  | [] => needle.isEmpty
  | _ :: t => startsWithChars hay needle || charsContain t needle

/-- Python's substring test `needle in hay`, on the underlying character
lists. -/
def strContains (hay needle : String) : Bool := charsContain hay.data needle.data

/-- Python dict lookup `d.get(k)` on an (insertion-ordered) table. -/
def lookupStr {α : Type} (l : List (String × α)) (k : String) : Option α :=
  (l.find? (fun p => p.1 == k)).map Prod.snd

/-- A journey stage's benchmark entries, in the source's insertion
order. -/
abbrev StageTable := List (String × ℚ)

/-- One industry's benchmarks: medium → stage → entries. -/
abbrev MediumTable := List (String × List (String × StageTable))

/-- The `'healthcare'` table of `INDUSTRY_BENCHMARKS`. -/
def healthcareTable : MediumTable :=
  [("social_media",
    [("awareness", [("reach", 1000), ("impressions", 2000)]),
     ("engagement", [("engagement_rate", 5 / 2), ("interactions", 50)]),
     ("conversion", [("link_clicks", 20), ("cta_clicks", 10)]),
     ("retention", [("follower_growth", 5), ("repeat_engagement", 15)]),
     ("advocacy", [("shares", 5), ("mentions", 3)])]),
   ("website",
    [("awareness", [("sessions", 500), ("users", 400)]),
     ("engagement", [("pages_per_session", 5 / 2), ("avg_session_duration", 120)]),
     ("conversion", [("conversions", 10), ("conversion_rate", 2)]),
     ("retention", [("returning_users", 30), ("retention_rate", 20)]),
     ("advocacy", [("referrals", 5), ("social_shares", 10)])]),
   ("email",
    [("awareness", [("emails_sent", 1000), ("emails_delivered", 950)]),
     ("engagement", [("email_opens", 200), ("email_clicks", 25)]),
     ("response", [("email_replies", 50)]),
     ("retention", [("unsubscribes", 5)]),
     ("quality", [("deliverability_score", 95)])])]

/-- The `'dental'` table of `INDUSTRY_BENCHMARKS`. -/
def dentalTable : MediumTable :=
  [("social_media",
    [("awareness", [("reach", 800), ("impressions", 1500)]),
     ("engagement", [("engagement_rate", 3), ("interactions", 60)]),
     ("conversion", [("link_clicks", 25), ("cta_clicks", 12)]),
     ("retention", [("follower_growth", 6), ("repeat_engagement", 18)]),
     ("advocacy", [("shares", 6), ("mentions", 4)])]),
   ("website",
    [("awareness", [("sessions", 600), ("users", 450)]),
     ("engagement", [("pages_per_session", 3), ("avg_session_duration", 150)]),
     ("conversion", [("conversions", 15), ("conversion_rate", 5 / 2)]),
     ("retention", [("returning_users", 35), ("retention_rate", 25)]),
     ("advocacy", [("referrals", 8), ("social_shares", 12)])]),
   ("email",
    [("awareness", [("emails_sent", 800), ("emails_delivered", 768)]),
     ("engagement", [("email_opens", 176), ("email_clicks", 24)]),
     ("response", [("email_replies", 48)]),
     ("retention", [("unsubscribes", 3)]),
     ("quality", [("deliverability_score", 96)])])]

/-- The `'medical'` table of `INDUSTRY_BENCHMARKS`. -/
def medicalTable : MediumTable :=
  [("social_media",
    [("awareness", [("reach", 900), ("impressions", 1800)]),
     ("engagement", [("engagement_rate", 11 / 5), ("interactions", 45)]),
     ("conversion", [("link_clicks", 18), ("cta_clicks", 9)]),
     ("retention", [("follower_growth", 4), ("repeat_engagement", 12)]),
     ("advocacy", [("shares", 4), ("mentions", 2)])]),
   ("website",
    [("awareness", [("sessions", 550), ("users", 420)]),
     ("engagement", [("pages_per_session", 14 / 5), ("avg_session_duration", 140)]),
     ("conversion", [("conversions", 12), ("conversion_rate", 11 / 5)]),
     ("retention", [("returning_users", 32), ("retention_rate", 22)]),
     ("advocacy", [("referrals", 6), ("social_shares", 8)])]),
   ("email",
    [("awareness", [("emails_sent", 900), ("emails_delivered", 855)]),
     ("engagement", [("email_opens", 189), ("email_clicks", 25)]),
     ("response", [("email_replies", 50)]),
     ("retention", [("unsubscribes", 5)]),
     ("quality", [("deliverability_score", 95)])])]

/-- The `'default'` table of `INDUSTRY_BENCHMARKS`. -/
def defaultTable : MediumTable :=
  [("social_media",
    [("awareness", [("reach", 1000), ("impressions", 2000)]),
     ("engagement", [("engagement_rate", 5 / 2), ("interactions", 50)]),
     ("conversion", [("link_clicks", 20), ("cta_clicks", 10)]),
     ("retention", [("follower_growth", 5), ("repeat_engagement", 15)]),
     ("advocacy", [("shares", 5), ("mentions", 3)])]),
   ("website",
    [("awareness", [("sessions", 500), ("users", 400)]),
     ("engagement", [("pages_per_session", 5 / 2), ("avg_session_duration", 120)]),
     ("conversion", [("conversions", 10), ("conversion_rate", 2)]),
     ("retention", [("returning_users", 30), ("retention_rate", 20)]),
     ("advocacy", [("referrals", 5), ("social_shares", 10)])]),
   ("email",
    [("awareness", [("emails_sent", 1000), ("emails_delivered", 950)]),
     ("engagement", [("email_opens", 200), ("email_clicks", 25)]),
     ("response", [("email_replies", 50)]),
     ("retention", [("unsubscribes", 5)]),
     ("quality", [("deliverability_score", 95)])])]

/-- `INDUSTRY_BENCHMARKS`, keyed by lower-case industry name. -/
def INDUSTRY_BENCHMARKS : List (String × MediumTable) :=
  [("healthcare", healthcareTable), ("dental", dentalTable),
   ("medical", medicalTable), ("default", defaultTable)]

/-- The matching test of `get_benchmark`'s loop:
`key.lower() in kpi_name.lower() or kpi_name.lower() in key.lower()`. -/
def keyMatches (key kpi_name : String) : Bool :=
  strContains (strToLower kpi_name) (strToLower key) ||
  strContains (strToLower key) (strToLower kpi_name)

/-- The `for key, value in stage_benchmarks.items()` loop of
`get_benchmark`: first matching key's value, else the final `return 0`. -/
def benchFromStage (stage_benchmarks : StageTable) (kpi_name : String) : ℚ :=
  match stage_benchmarks.find? (fun p => keyMatches p.1 kpi_name) with
  | some p => p.2
  | none => 0

/-- The `if medium in benchmarks and journey_stage in benchmarks[medium]`
body of `get_benchmark`. -/
def benchFromMedium (benchmarks : MediumTable) (medium journey_stage kpi_name : String) : ℚ :=
  match lookupStr benchmarks medium with
  | none => 0
  | some mt =>
    match lookupStr mt journey_stage with
    | none => 0
    | some st => benchFromStage st kpi_name

/-- `get_benchmark` (src/models.py): industry lookup falls back to the
`'default'` table, then medium → stage → first substring-matching key. -/
def get_benchmark (industry medium journey_stage kpi_name : String) : ℚ :=
  benchFromMedium ((lookupStr INDUSTRY_BENCHMARKS (strToLower industry)).getD defaultTable)
    medium journey_stage kpi_name

/-- C3 counterexample: `get_benchmark("unknown-industry", "email",
"awareness", "Emails Sent")` returns 0, not the default table's 1000 —
the key `emails_sent` and the name `Emails Sent` do not contain one
another (underscore vs. space). -/
theorem benchmark_unknown_industry_cex :
    get_benchmark "unknown-industry" "email" "awareness" "Emails Sent" = 0 ∧
    (0 : ℚ) ≠ 1000 :=
  ⟨by decide, by norm_num⟩

/-- C3 amended: an industry absent from the table falls back to the
`'default'` table; the result is 0 when no medium/stage table or no
substring-matching key exists; the quoted call returns 0 (not 1000),
while the canonical key `emails_sent` does return 1000. -/
theorem benchmark_fallback (industry medium journey_stage kpi_name : String)
    (h : lookupStr INDUSTRY_BENCHMARKS (strToLower industry) = none) :
    get_benchmark industry medium journey_stage kpi_name =
      benchFromMedium defaultTable medium journey_stage kpi_name ∧
    (∀ st : StageTable, st.find? (fun p => keyMatches p.1 kpi_name) = none →
      benchFromStage st kpi_name = 0) ∧
    (lookupStr defaultTable medium = none →
      get_benchmark industry medium journey_stage kpi_name = 0) ∧
    get_benchmark "unknown-industry" "email" "awareness" "Emails Sent" = 0 ∧
    get_benchmark "unknown-industry" "email" "awareness" "emails_sent" = 1000 := by
  refine ⟨?_, ?_, ?_, by decide, by decide⟩
  · rw [get_benchmark, h]
    rfl
  · intro st hst
    rw [benchFromStage, hst]
  · intro hm
    rw [get_benchmark, h]
    show benchFromMedium defaultTable _ _ _ = 0
    rw [benchFromMedium, hm]

/-- C3 witness: the fallback equation at the quoted concrete call. -/
theorem benchmark_fallback_witness :
    get_benchmark "unknown-industry" "email" "awareness" "Emails Sent" =
      benchFromMedium defaultTable "email" "awareness" "Emails Sent" :=
  (benchmark_fallback "unknown-industry" "email" "awareness" "Emails Sent" rfl).1

/-! ### Derived rates (src/email_metrics_fetcher.py,
src/data_collector.py) -/

/-- Python `round(x, 2)`: round to the nearest multiple of 1/100.  (The
claims only exercise this at exact values, where the float tie-breaking
rule is immaterial.) -/
def round2 (q : ℚ) : ℚ := ((round (q * 100) : ℤ) : ℚ) / 100

/-- `open_rate` from `calculate_customer_journey_metrics`
(src/email_metrics_fetcher.py line 381):
`round((total_opened / delivered * 100) if delivered > 0 else 0, 2)`. -/
def open_rate (total_opened delivered : ℚ) : ℚ :=
  round2 (if delivered > 0 then total_opened / delivered * 100 else 0)

/-- `deliverability_score` from `collect_email_bulk`
(src/data_collector.py line 532):
`(total_delivered / total_sent * 100) if total_sent > 0 else 0`. -/
def deliverability_score (total_delivered total_sent : ℚ) : ℚ :=
  if total_sent > 0 then total_delivered / total_sent * 100 else 0

/-- C6: each derived rate is numerator/denominator × 100, and is exactly
0 when the denominator is 0 — the guard short-circuits, so no division
error can arise. -/
theorem rate_zero_denominator (total_opened delivered total_delivered total_sent : ℚ)
    (_h1 : 0 ≤ total_opened) (_h2 : 0 ≤ delivered)
    (_h3 : 0 ≤ total_delivered) (_h4 : 0 ≤ total_sent) :
    (delivered = 0 → open_rate total_opened delivered = 0) ∧
    (0 < delivered → open_rate total_opened delivered =
      round2 (total_opened / delivered * 100)) ∧
    (total_sent = 0 → deliverability_score total_delivered total_sent = 0) ∧
    (0 < total_sent → deliverability_score total_delivered total_sent =
      total_delivered / total_sent * 100) := by
  refine ⟨?_, ?_, ?_, ?_⟩
  · intro h; simp [open_rate, h, round2]
  · intro h; simp [open_rate, h]
  · intro h; simp [deliverability_score, h]
  · intro h; simp [deliverability_score, h]

/-- C6 witness: zero denominators at concrete totals. -/
theorem rate_zero_denominator_witness :
    open_rate 5 0 = 0 ∧ deliverability_score 7 0 = 0 :=
  ⟨(rate_zero_denominator 5 0 7 0 (by norm_num) le_rfl (by norm_num) le_rfl).1 rfl,
   (rate_zero_denominator 5 0 7 0 (by norm_num) le_rfl (by norm_num) le_rfl).2.2.1 rfl⟩

/-! ### Monthly bucketing (src/data_collector.py, collect_social_bulk) -/

/-- A `(year, month)` bucket key, as used by `monthly_data[month_key]`. -/
abbrev MonthKey := ℤ × ℤ

/-- The running totals one month bucket accumulates in
`collect_social_bulk` (reach from Instagram; reactions, comments, shares
from Facebook). -/
structure SocialTotals where
  reach : ℚ
  reactions : ℚ
  comments : ℚ
  shares : ℚ
  deriving Repr, DecidableEq

/-- Componentwise sum of two buckets (used to state additivity). -/
def SocialTotals.add (a b : SocialTotals) : SocialTotals :=
  ⟨a.reach + b.reach, a.reactions + b.reactions,
   a.comments + b.comments, a.shares + b.shares⟩

/-- The zero-initialized bucket created on first sight of a month. -/
def SocialTotals.zero : SocialTotals := ⟨0, 0, 0, 0⟩

/-- One daily observation: the month it falls in (derived from its
date) and its contribution to each accumulated metric. -/
structure SocialObs where
  key : MonthKey
  contrib : SocialTotals
  deriving Repr, DecidableEq

/-- One `monthly_data[month_key][metric] += value` step: lazily creates
the bucket (absent months read as zero) and adds the contribution. -/
def addObs (acc : MonthKey → SocialTotals) (o : SocialObs) : MonthKey → SocialTotals :=
  fun k => if k = o.key then (acc k).add o.contrib else acc k

/-- Folding a whole observation stream into per-month buckets, as the
chunk loops of `collect_social_bulk` do. -/
def bucketObs (obs : List SocialObs) : MonthKey → SocialTotals :=
  obs.foldl addObs (fun _ => SocialTotals.zero)

/-- Adding to a fresh zero bucket yields the contribution itself. -/
theorem totals_zero_add (a : SocialTotals) : SocialTotals.zero.add a = a := by
  cases a; simp [SocialTotals.add, SocialTotals.zero]

/-- A bucket is unchanged by adding the zero bucket. -/
theorem totals_add_zero (a : SocialTotals) : a.add SocialTotals.zero = a := by
  cases a; simp [SocialTotals.add, SocialTotals.zero]

/-- Bucket addition is associative (componentwise on ℚ). -/
theorem totals_add_assoc (a b c : SocialTotals) :
    (a.add b).add c = a.add (b.add c) := by
  cases a; cases b; cases c
  simp only [SocialTotals.add, SocialTotals.mk.injEq]
  exact ⟨add_assoc _ _ _, add_assoc _ _ _, add_assoc _ _ _, add_assoc _ _ _⟩

/-- Folding observations on top of any starting map equals the start
plus the fold from zero. -/
theorem foldl_addObs_shift (obs : List SocialObs) (f : MonthKey → SocialTotals)
    (k : MonthKey) :
    (obs.foldl addObs f) k = (f k).add (bucketObs obs k) := by
  induction obs generalizing f with
  | nil => exact (totals_add_zero (f k)).symm
  | cons o os ih =>
    show (os.foldl addObs (addObs f o)) k = _
    rw [ih (addObs f o)]
    have hb : bucketObs (o :: os) k = (addObs (fun _ => SocialTotals.zero) o k).add (bucketObs os k) := by
      show (os.foldl addObs (addObs (fun _ => SocialTotals.zero) o)) k = _
      rw [ih (addObs (fun _ => SocialTotals.zero) o)]
    rw [hb, addObs, addObs]
    by_cases hk : k = o.key
    · simp [hk, totals_zero_add, totals_add_assoc]
    · simp [hk, totals_zero_add]


/-- Bucket addition is commutative (componentwise on ℚ). -/
theorem totals_add_comm (a b : SocialTotals) : a.add b = b.add a := by
  cases a; cases b
  simp only [SocialTotals.add, SocialTotals.mk.injEq]
  exact ⟨add_comm _ _, add_comm _ _, add_comm _ _, add_comm _ _⟩

/-- Unfolding one observation off the front of a fold. -/
theorem bucket_cons (x : SocialObs) (t : List SocialObs) (k : MonthKey) :
    bucketObs (x :: t) k =
      (addObs (fun _ => SocialTotals.zero) x k).add (bucketObs t k) :=
  foldl_addObs_shift t (addObs (fun _ => SocialTotals.zero) x) k

/-- Bucketing a concatenation is the month-by-month sum of the parts. -/
theorem bucket_append (l1 l2 : List SocialObs) (k : MonthKey) :
    bucketObs (l1 ++ l2) k = (bucketObs l1 k).add (bucketObs l2 k) := by
  show ((l1 ++ l2).foldl addObs (fun _ => SocialTotals.zero)) k = _
  rw [List.foldl_append]
  exact foldl_addObs_shift l2 _ k

/-- Bucketing is invariant under reordering the observations. -/
theorem bucket_perm (l l' : List SocialObs) (h : l.Perm l') :
    bucketObs l = bucketObs l' := by
  induction h with
  | nil => rfl
  | cons x h ih =>
    funext k
    rw [bucket_cons, bucket_cons, ih]
  | swap x y l =>
    funext k
    rw [bucket_cons, bucket_cons, bucket_cons, bucket_cons]
    rw [← totals_add_assoc, ← totals_add_assoc,
        totals_add_comm (addObs (fun _ => SocialTotals.zero) y k)]
  | trans h1 h2 ih1 ih2 => exact ih1.trans ih2

/-- C7: folding any collection of daily observations split (in any
order) into two sub-collections — e.g. the two sides of a 30-day chunk
boundary — and summing the resulting maps month by month equals folding
all observations in one pass, for every accumulated metric. -/
theorem bucketing_additivity (l l1 l2 : List SocialObs)
    (h : l.Perm (l1 ++ l2)) (k : MonthKey) :
    bucketObs l k = (bucketObs l1 k).add (bucketObs l2 k) := by
  rw [bucket_perm l (l1 ++ l2) h]
  exact bucket_append l1 l2 k

/-- C7 witness: a concrete three-observation split whose (2026,1) bucket
sums to (11, 22, 33, 44). -/
theorem bucketing_additivity_witness :
    bucketObs ([⟨(2026, 1), ⟨10, 20, 30, 40⟩⟩, ⟨(2026, 2), ⟨5, 0, 0, 0⟩⟩] ++
        [⟨(2026, 1), ⟨1, 2, 3, 4⟩⟩]) (2026, 1) =
      (bucketObs [⟨(2026, 1), ⟨1, 2, 3, 4⟩⟩] (2026, 1)).add
        (bucketObs [⟨(2026, 1), ⟨10, 20, 30, 40⟩⟩, ⟨(2026, 2), ⟨5, 0, 0, 0⟩⟩] (2026, 1)) ∧
    bucketObs ([⟨(2026, 1), ⟨10, 20, 30, 40⟩⟩, ⟨(2026, 2), ⟨5, 0, 0, 0⟩⟩] ++
        [⟨(2026, 1), ⟨1, 2, 3, 4⟩⟩]) (2026, 1) = ⟨11, 22, 33, 44⟩ := by
  constructor
  · exact bucketing_additivity _ _ _ List.perm_append_comm (2026, 1)
  · simp [bucketObs, addObs, SocialTotals.add, SocialTotals.zero]
    norm_num

/-! ### Collection orchestration (src/app.py, src/data_collector.py) -/

/-- A list that starts with `n` still does after appending. -/
theorem startsWithChars_append (a b n : List Char) (h : startsWithChars a n = true) :
    startsWithChars (a ++ b) n = true := by
  induction n generalizing a with
  | nil => simp [startsWithChars]
  | cons nh nt ih =>
    cases a with
    | nil => simp [startsWithChars] at h
    | cons h1 t1 =>
      simp [startsWithChars] at h ⊢
      exact ⟨h.1, ih t1 h.2⟩

/-- A substring of `a` is a substring of `a ++ b`. -/
theorem charsContain_append_left (a b n : List Char) (h : charsContain a n = true) :
    charsContain (a ++ b) n = true := by
  induction a with
  | nil =>
    simp [charsContain] at h
    cases b with
    | nil => simp [charsContain, h]
    | cons x t => simp [charsContain, startsWithChars, h]
  | cons x t ih =>
    simp only [List.cons_append, charsContain, Bool.or_eq_true] at h ⊢
    rcases h with h | h
    · exact Or.inl (startsWithChars_append _ _ _ h)
    · exact Or.inr (ih h)

/-- A single character occurs in `a ++ b` iff it occurs in a part
(single-character needles cannot straddle the boundary). -/
theorem charsContain_append_single (a b : List Char) (c : Char) :
    charsContain (a ++ b) [c] = (charsContain a [c] || charsContain b [c]) := by
  induction a with
  | nil => simp [charsContain]
  | cons x t ih =>
    simp only [List.cons_append, charsContain, startsWithChars, Bool.and_true, ih]
    cases x == c <;> simp [ih]


/-- The per-source status `update_status` derives from a message
(src/app.py lines 288-297): a '✅' marks completed; otherwise a '⚠️'
or the word 'failed' (lower-cased message) marks failed; otherwise the
source is still collecting. -/
def statusFromMessage (msg : String) : String :=
  if strContains msg "✅" then "completed"
  else if strContains msg "⚠️" || strContains (strToLower msg) "failed" then "failed"
  else "collecting"

/-- The final message `collect_with_status` emits for one source
(src/data_collector.py lines 272-292): its `try/except` turns success
into a '✅ ... complete!' update and any exception into a
'⚠️ ... failed: ...' update (the `[:50]` truncation of the error text
only shortens it and is not modelled). -/
def collectMessage (name : String) : Except String Unit → String
  | .ok _ => "✅ " ++ name ++ " complete!"
  | .error e => "⚠️ " ++ name ++ " failed: " ++ e

/-- The run's collection-status record (src/app.py `collection_status`),
reduced to the fields the claims mention; per-source entries hold that
source's status string. -/
structure CollectionState where
  status : String
  progress : ℕ
  completed : Bool
  social_media : String
  email : String
  website : String
  deriving Repr, DecidableEq

/-- `run_collection` (src/app.py lines 306-340) composed with
`collect_all_data` in current-period mode: each source's collect call is
wrapped by `collect_with_status`, which catches its exceptions, so
`collect_all_data` always returns and the run is marked completed at
progress 100; per-source statuses come from each source's final message.
`init` abstracts everything `run_collection` does before the fan-out
(constructing `DataCollector`, which reads customer and credentials from
the store): if that raises, the outer `except` sets status 'error'. -/
def run_collection (init : Except String Unit)
    (social email website : Except String Unit) : CollectionState :=
  match init with
  | .error _ =>
    { status := "error", progress := 10, completed := false,
      social_media := "pending", email := "pending", website := "pending" }
  | .ok _ =>
    { status := "completed", progress := 100, completed := true,
      social_media := statusFromMessage (collectMessage "Social Media" social),
      email := statusFromMessage (collectMessage "Email" email),
      website := statusFromMessage (collectMessage "Website" website) }

/-- `get_collection_status` (src/app.py lines 369-376): partial data is
available iff some source's status equals 'completed'. -/
def partialDataAvailable (st : CollectionState) : Bool :=
  st.social_media == "completed" || st.email == "completed" || st.website == "completed"

/-- A '⚠️ ... failed: e' message is classified 'failed' by
`update_status`, provided neither the source name nor the error text
smuggles in a '✅'. -/
theorem failed_message_status (name e : String)
    (hpre : strContains name "✅" = false)
    (he : strContains e "✅" = false) :
    statusFromMessage ("⚠️ " ++ name ++ " failed: " ++ e) = "failed" := by
  have hchk : strContains ("⚠️ " ++ name ++ " failed: " ++ e) "✅" = false := by
    simp only [strContains, String.data_append] at hpre he ⊢
    simp only [charsContain_append_single, hpre, he]
    decide
  have hwarn : strContains ("⚠️ " ++ name ++ " failed: " ++ e) "⚠️" = true := by
    simp only [strContains, String.data_append]
    rw [List.append_assoc, List.append_assoc]
    exact charsContain_append_left _ _ _ (by decide)
  rw [statusFromMessage, hchk, if_neg (by simp), if_pos (by simp [hwarn])]


/-- C4: with one source raising and the other two succeeding, the run
still completes at progress 100, the failing source is 'failed', the
others 'completed', and partial data is reported available; in general
partial availability holds iff some source completed. -/
theorem partial_source_resilience (e : String)
    (he : strContains e "✅" = false) :
    (run_collection (Except.ok ()) (Except.error e) (Except.ok ()) (Except.ok ())).status
      = "completed" ∧
    (run_collection (Except.ok ()) (Except.error e) (Except.ok ()) (Except.ok ())).progress
      = 100 ∧
    (run_collection (Except.ok ()) (Except.error e) (Except.ok ()) (Except.ok ())).social_media
      = "failed" ∧
    (run_collection (Except.ok ()) (Except.error e) (Except.ok ()) (Except.ok ())).email
      = "completed" ∧
    (run_collection (Except.ok ()) (Except.error e) (Except.ok ()) (Except.ok ())).website
      = "completed" ∧
    partialDataAvailable
      (run_collection (Except.ok ()) (Except.error e) (Except.ok ()) (Except.ok ())) = true ∧
    (∀ st : CollectionState, partialDataAvailable st = true ↔
      (st.social_media = "completed" ∨ st.email = "completed" ∨ st.website = "completed")) := by
  have hs : statusFromMessage (collectMessage "Social Media" (Except.error e)) = "failed" :=
    failed_message_status "Social Media" e (by decide) he
  have hem : statusFromMessage (collectMessage "Email" (Except.ok ())) = "completed" := by decide
  have hw : statusFromMessage (collectMessage "Website" (Except.ok ())) = "completed" := by decide
  refine ⟨rfl, rfl, hs, hem, hw, ?_, ?_⟩
  · simp only [partialDataAvailable, run_collection]
    rw [hem]
    simp
  · intro st
    simp [partialDataAvailable, or_assoc]

/-- C4 witness: the run outcome with the social source raising 'boom'. -/
theorem partial_source_resilience_witness :
    (run_collection (Except.ok ()) (Except.error "boom") (Except.ok ()) (Except.ok ())).status
      = "completed" ∧
    (run_collection (Except.ok ()) (Except.error "boom") (Except.ok ()) (Except.ok ())).progress
      = 100 ∧
    (run_collection (Except.ok ()) (Except.error "boom") (Except.ok ()) (Except.ok ())).social_media
      = "failed" ∧
    (run_collection (Except.ok ()) (Except.error "boom") (Except.ok ()) (Except.ok ())).email
      = "completed" ∧
    (run_collection (Except.ok ()) (Except.error "boom") (Except.ok ()) (Except.ok ())).website
      = "completed" ∧
    partialDataAvailable
      (run_collection (Except.ok ()) (Except.error "boom") (Except.ok ()) (Except.ok ())) = true ∧
    (∀ st : CollectionState, partialDataAvailable st = true ↔
      (st.social_media = "completed" ∨ st.email = "completed" ∨ st.website = "completed")) :=
  partial_source_resilience "boom" (by decide)

/-- `collect_email_bulk` wraps its whole month loop - every
`_store_metric` / `HistoricalMetric.add` write included - in
`try/except Exception` whose handler only logs
(src/data_collector.py lines 477, 613-616), so it returns normally
whatever the body raises; `body` abstracts the loop body's outcome,
`.error` covering a failing store write. -/
def collect_email_bulk_outcome (body : Except String Unit) : Except String Unit :=
  match body with
  | .ok _ => .ok ()
  | .error _ => .ok ()

/-- C8 counterexample: a store write failing with 'StoreUnavailable'
during email collection is swallowed inside `collect_email_bulk`; the
run ends 'completed' (not 'error') and the email source is even
reported 'completed'. -/
theorem store_failure_completed_cex :
    (run_collection (Except.ok ()) (Except.ok ())
      (collect_email_bulk_outcome (Except.error "StoreUnavailable"))
      (Except.ok ())).status = "completed" ∧
    (run_collection (Except.ok ()) (Except.ok ())
      (collect_email_bulk_outcome (Except.error "StoreUnavailable"))
      (Except.ok ())).email = "completed" ∧
    ("completed" : String) ≠ "error" :=
  ⟨rfl, by decide, by decide⟩

/-- C8 amended: any failure inside a source's bulk collector - store
writes included - is absorbed there and the run still completes, the
source reported 'completed'; only an exception outside the per-source
collectors (e.g. `DataCollector` construction with the persistence
client down) surfaces as the run-level 'error' state. -/
theorem store_failure_absorbed (body : Except String Unit) (e : String) :
    collect_email_bulk_outcome body = Except.ok () ∧
    (run_collection (Except.ok ()) (Except.ok ())
      (collect_email_bulk_outcome body) (Except.ok ())).status = "completed" ∧
    (run_collection (Except.ok ()) (Except.ok ())
      (collect_email_bulk_outcome body) (Except.ok ())).email = "completed" ∧
    (run_collection (Except.error e) (Except.ok ()) (Except.ok ())
      (Except.ok ())).status = "error" := by
  have hb : collect_email_bulk_outcome body = Except.ok () := by
    cases body <;> rfl
  refine ⟨hb, rfl, ?_, rfl⟩
  show statusFromMessage (collectMessage "Email" (collect_email_bulk_outcome body)) = "completed"
  rw [hb]
  decide

/-- C8 witness: the absorbed-failure outcome at a concrete error. -/
theorem store_failure_absorbed_witness :
    collect_email_bulk_outcome (Except.error "db down") = Except.ok () ∧
    (run_collection (Except.ok ()) (Except.ok ())
      (collect_email_bulk_outcome (Except.error "db down")) (Except.ok ())).status = "completed" ∧
    (run_collection (Except.ok ()) (Except.ok ())
      (collect_email_bulk_outcome (Except.error "db down")) (Except.ok ())).email = "completed" ∧
    (run_collection (Except.error "db down") (Except.ok ()) (Except.ok ())
      (Except.ok ())).status = "error" :=
  store_failure_absorbed (Except.error "db down") "db down"

/-! ### periodDays (src/data_collector.py) -/

/-- Gregorian leap-year rule, as implemented by Python's `datetime`. -/
def isLeapYear (y : ℤ) : Prop := (y % 4 = 0 ∧ y % 100 ≠ 0) ∨ y % 400 = 0

instance (y : ℤ) : Decidable (isLeapYear y) := by
  unfold isLeapYear; infer_instance

/-- Days before the start of month `m` in a common year (the
`_DAYS_BEFORE_MONTH` table underlying `datetime`). -/
def daysBeforeMonthTable (m : ℤ) : ℤ :=
  if m ≤ 1 then 0 else if m = 2 then 31 else if m = 3 then 59 else if m = 4 then 90
  else if m = 5 then 120 else if m = 6 then 151 else if m = 7 then 181
  else if m = 8 then 212 else if m = 9 then 243 else if m = 10 then 273
  else if m = 11 then 304 else 334

/-- Days before the start of month `m` of year `y`, with the leap-day
correction after February. -/
def daysBeforeMonth (y m : ℤ) : ℤ :=
  daysBeforeMonthTable m + (if 2 < m ∧ isLeapYear y then 1 else 0)

/-- Days before January 1 of year `y` in the proleptic Gregorian
calendar (`datetime.toordinal` year part). -/
def daysBeforeYear (y : ℤ) : ℤ :=
  365 * (y - 1) + (y - 1) / 4 - (y - 1) / 100 + (y - 1) / 400

/-- `datetime(y, m, d).toordinal()`: date subtraction in the source
(`(d2 - d1).days`) is the difference of these ordinals. -/
def toOrdinal (y m d : ℤ) : ℤ := daysBeforeYear y + daysBeforeMonth y m + d

/-- The `if month == 12: next = datetime(year+1, 1, 1) else
datetime(year, month+1, 1)` computation shared by all three bulk
collectors. -/
def nextMonthStart (year month : ℤ) : ℤ × ℤ :=
  if month = 12 then (year + 1, 1) else (year, month + 1)

/-- The `periodDays` stored by `collect_website_bulk`
(src/data_collector.py lines 404-410): `(next_month_start -
month_start).days`, a function of `(year, month)` alone.
`collect_social_bulk` (lines 773-779) computes the identical value. -/
def websiteStoredDays (year month : ℤ) : ℤ :=
  toOrdinal (nextMonthStart year month).1 (nextMonthStart year month).2 1 -
    toOrdinal year month 1

/-- The `periodDays` stored by `collect_email_bulk`
(src/data_collector.py lines 493-535): `(month_end - month_start).days +
1` with `month_end` the last day of the month - again a function of
`(year, month)` alone, independent of the collection window. -/
def emailStoredDays (year month : ℤ) : ℤ :=
  ((toOrdinal (nextMonthStart year month).1 (nextMonthStart year month).2 1 - 1) -
    toOrdinal year month 1) + 1

/-- Modelled from the spec: the number of calendar days in month
`(y, m)` (28-31), the value the spec says a completed month's record
carries. -/
def daysInMonthSpec (y m : ℤ) : ℤ :=
  if m = 2 then (if isLeapYear y then 29 else 28)
  else if m = 4 ∨ m = 6 ∨ m = 9 ∨ m = 11 then 30 else 31

set_option maxHeartbeats 1000000 in
/-- C9 amended: every stored record's `periodDays` equals the calendar
length of its month (28-31) - including the current, still-accumulating
month, since the computation depends on `(year, month)` only. -/
theorem periodDays_calendar (y m : ℤ) (_hy : 1 ≤ y) (hm1 : 1 ≤ m) (hm2 : m ≤ 12) :
    websiteStoredDays y m = daysInMonthSpec y m ∧
    emailStoredDays y m = daysInMonthSpec y m ∧
    28 ≤ websiteStoredDays y m ∧ websiteStoredDays y m ≤ 31 := by
  have hw : websiteStoredDays y m = daysInMonthSpec y m := by
    interval_cases m <;>
      norm_num [websiteStoredDays, nextMonthStart, toOrdinal, daysBeforeMonth,
        daysBeforeMonthTable, daysInMonthSpec, daysBeforeYear] <;>
      split_ifs with h <;>
      simp only [isLeapYear] at h <;>
      omega
  have hb : 28 ≤ daysInMonthSpec y m ∧ daysInMonthSpec y m ≤ 31 := by
    unfold daysInMonthSpec
    split_ifs <;> omega
  have he : emailStoredDays y m = websiteStoredDays y m := by
    unfold emailStoredDays websiteStoredDays
    ring
  exact ⟨hw, he.trans hw, hw ▸ hb.1, hw ▸ hb.2⟩

/-- C9 counterexample: for a run on 2026-10-12 (window 2026-10-01 to
2026-10-12, October still accumulating), the stored `periodDays` for
(2026, 10) is 31 - the full calendar length - not the 12 (or 11) days
elapsed in the collection window. -/
theorem periodDays_current_month_cex :
    emailStoredDays 2026 10 = 31 ∧ websiteStoredDays 2026 10 = 31 ∧
    (31 : ℤ) ≠ 12 ∧ (31 : ℤ) ≠ 11 :=
  ⟨by decide, by decide, by decide, by decide⟩

/-- C9 witness: the calendar-days equation at the concrete month
February 2026. -/
theorem periodDays_calendar_witness :
    websiteStoredDays 2026 2 = daysInMonthSpec 2026 2 ∧
    emailStoredDays 2026 2 = daysInMonthSpec 2026 2 ∧
    28 ≤ websiteStoredDays 2026 2 ∧ websiteStoredDays 2026 2 ≤ 31 :=
  periodDays_calendar 2026 2 (by norm_num) (by norm_num) (by norm_num)

/-! ### Metric history read path (src/models.py, HistoricalMetric) -/

/-- The `while month <= 0: month += 12; year -= 1` normalization inside
`HistoricalMetric.get_history`. -/
def normYM (y m : ℤ) : ℤ × ℤ :=
  if m ≤ 0 then normYM (y - 1) (m + 12) else (y, m)
termination_by (1 - m).toNat
decreasing_by
  simp_wf
  omega

/-- The month normalization preserves the linearized month index
`12*year + month` and lands in `1..12` (for start months at most 12). -/
theorem normYM_spec (y m : ℤ) :
    12 * (normYM y m).1 + (normYM y m).2 = 12 * y + m ∧
    1 ≤ (normYM y m).2 ∧ (m ≤ 12 → (normYM y m).2 ≤ 12) := by
  induction y, m using normYM.induct with
  | case1 y m h ih =>
    rw [normYM, if_pos h]
    refine ⟨by omega, ih.2.1, fun _ => ih.2.2 (by omega)⟩
  | case2 y m h =>
    rw [normYM, if_neg h]
    exact ⟨rfl, by omega, fun h12 => h12⟩

/-- `HistoricalMetric.get_history`: walk the last `months` calendar
months backwards from the current month, keep the months whose document
exists in the store (absent months are skipped), then reverse into
chronological order.  `datetime.now()` is the `(currentYear,
currentMonth)` parameters; the Firestore document read is the pure
`store` function; a record is its `(year, month, kpi_value)` content. -/
def get_history (store : ℤ → ℤ → Option ℚ) (currentYear currentMonth : ℤ)
    (months : ℕ) : List (ℤ × ℤ × ℚ) :=
  ((List.range months).filterMap (fun (i : ℕ) =>
    (store (normYM currentYear (currentMonth - (i : ℤ))).1
           (normYM currentYear (currentMonth - (i : ℤ))).2).map
      (fun v => ((normYM currentYear (currentMonth - (i : ℤ))).1,
                 (normYM currentYear (currentMonth - (i : ℤ))).2, v)))).reverse

/-- C10: `get_history` returns at most `months` records, sorted
oldest-to-newest by `(year, month)`, containing exactly the stored
records of the `months` most recent calendar months ending at the
current month - months without a record are silently omitted. -/
theorem get_history_spec (store : ℤ → ℤ → Option ℚ) (cy cm : ℤ) (N : ℕ)
    (hm1 : 1 ≤ cm) (hm2 : cm ≤ 12) :
    (get_history store cy cm N).length ≤ N ∧
    (get_history store cy cm N).Pairwise
      (fun a b => a.1 < b.1 ∨ (a.1 = b.1 ∧ a.2.1 < b.2.1)) ∧
    (∀ yr mo v, ((yr, mo, v) ∈ get_history store cy cm N ↔
      ∃ i : ℕ, i < N ∧ normYM cy (cm - (i : ℤ)) = (yr, mo) ∧ store yr mo = some v)) ∧
    (∀ i : ℕ, i < N →
      12 * (normYM cy (cm - (i : ℤ))).1 + (normYM cy (cm - (i : ℤ))).2 =
        12 * cy + cm - (i : ℤ) ∧
      1 ≤ (normYM cy (cm - (i : ℤ))).2 ∧ (normYM cy (cm - (i : ℤ))).2 ≤ 12) := by
  have hkey : ∀ i : ℕ,
      12 * (normYM cy (cm - (i : ℤ))).1 + (normYM cy (cm - (i : ℤ))).2 =
        12 * cy + cm - (i : ℤ) ∧
      1 ≤ (normYM cy (cm - (i : ℤ))).2 ∧ (normYM cy (cm - (i : ℤ))).2 ≤ 12 := by
    intro i
    obtain ⟨h1, h2, h3⟩ := normYM_spec cy (cm - (i : ℤ))
    exact ⟨by omega, h2, h3 (by omega)⟩
  refine ⟨?_, ?_, ?_, fun i _ => hkey i⟩
  · rw [get_history, List.length_reverse]
    calc ((List.range N).filterMap _).length ≤ (List.range N).length :=
          List.length_filterMap_le _ _
      _ = N := List.length_range N
  · rw [get_history, List.pairwise_reverse]
    refine List.Pairwise.filterMap _ ?_ (List.pairwise_lt_range N)
    intro i j hij a ha b hb
    simp only [Option.mem_def, Option.map_eq_some'] at ha hb
    obtain ⟨va, hva, rfl⟩ := ha
    obtain ⟨vb, hvb, rfl⟩ := hb
    have hi := hkey i
    have hj := hkey j
    simp only
    omega
  · intro yr mo v
    rw [get_history, List.mem_reverse, List.mem_filterMap]
    constructor
    · rintro ⟨i, hi, hsome⟩
      simp only [Option.mem_def, Option.map_eq_some'] at hsome
      obtain ⟨w, hw, heq⟩ := hsome
      have h1 : (normYM cy (cm - (i : ℤ))).1 = yr := congrArg Prod.fst heq
      have h2 : (normYM cy (cm - (i : ℤ))).2 = mo := congrArg (fun p => p.2.1) heq
      have h3 : w = v := congrArg (fun p => p.2.2) heq
      refine ⟨i, by simpa using hi, ?_, ?_⟩
      · rw [Prod.ext_iff]; exact ⟨h1, h2⟩
      · rw [← h1, ← h2, hw, h3]
    · rintro ⟨i, hi, hym, hst⟩
      refine ⟨i, by simpa using hi, ?_⟩
      have h1 : (normYM cy (cm - (i : ℤ))).1 = yr := by rw [hym]
      have h2 : (normYM cy (cm - (i : ℤ))).2 = mo := by rw [hym]
      simp only [Option.mem_def, Option.map_eq_some']
      exact ⟨v, by rw [h1, h2, hst], by rw [h1, h2]⟩

/-- A concrete store with records only for 2026-10 and 2026-08, leaving a
gap at 2026-09. -/
def sampleStore : ℤ → ℤ → Option ℚ := fun y m =>
  if y = 2026 ∧ m = 10 then some 5 else if y = 2026 ∧ m = 8 then some 3 else none

/-- C10 witness: the history specification at the concrete gapped store,
current month 2026-10, three months back. -/
theorem get_history_spec_witness :
    (get_history sampleStore 2026 10 3).length ≤ 3 ∧
    (get_history sampleStore 2026 10 3).Pairwise
      (fun a b => a.1 < b.1 ∨ (a.1 = b.1 ∧ a.2.1 < b.2.1)) ∧
    (∀ yr mo v, ((yr, mo, v) ∈ get_history sampleStore 2026 10 3 ↔
      ∃ i : ℕ, i < 3 ∧ normYM 2026 (10 - (i : ℤ)) = (yr, mo) ∧
        sampleStore yr mo = some v)) ∧
    (∀ i : ℕ, i < 3 →
      12 * (normYM 2026 (10 - (i : ℤ))).1 + (normYM 2026 (10 - (i : ℤ))).2 =
        12 * 2026 + 10 - (i : ℤ) ∧
      1 ≤ (normYM 2026 (10 - (i : ℤ))).2 ∧ (normYM 2026 (10 - (i : ℤ))).2 ≤ 12) :=
  get_history_spec sampleStore 2026 10 3 (by norm_num) (by norm_num)

end CCReport
